import Mathlib

/-!
Shallow embedding of the Shopify MCP order tools:
`src/tools/getOrders.ts`, `src/tools/getOrderById.ts` and the server
registration in `src/index.ts`.

Each tool is a stateless adapter: it builds a fixed GraphQL document, a
variables object derived from the validated input, issues exactly one request
on the injected GraphQL client, and reshapes the response (or wraps the error
with a fixed prefix).  The GraphQL client is modelled as an oracle function
from requests to either a response or a thrown error; `execute` additionally
returns the list of requests it issued, so that call-count properties can be
stated.  Response payloads that the code never inspects (order nodes) are kept
polymorphic.
-/

namespace ShopifyMCP

/-- A thrown JavaScript `Error`, reduced to the only field the code reads. -/
structure JsError where
  message : String
deriving DecidableEq, Repr

/-- The `OrderSortKeys` enum accepted by the `sortKey` field of
`GetOrdersInputSchema` (getOrders.ts line 12). -/
inductive OrderSortKeys where
  | CREATED_AT
  | CUSTOMER_NAME
  | ID
  | ORDER_NUMBER
  | PROCESSED_AT
  | TOTAL_PRICE
  | UPDATED_AT
deriving DecidableEq, Repr

/-- The validated input of `getOrders.execute`, i.e. `z.infer` of
`GetOrdersInputSchema` (getOrders.ts lines 6-15): after zod validation,
`limit`, `reverse` and `sortKey` are always present (defaults applied), the
cursors and the search query stay optional. -/
structure GetOrdersInput where
  query : Option String
  limit : Int
  after : Option String
  before : Option String
  reverse : Bool
  sortKey : OrderSortKeys
deriving DecidableEq, Repr

/-- JavaScript truthiness of an optional string, as used by
`if (before)`, `if (after)` and `if (searchQuery)` in getOrders.ts
(lines 203, 208, 214): `undefined` and the empty string are falsy. -/
def strTruthy : Option String → Bool
  | none => false
  | some s => !(s == "")

/-- The `variables` object of `getOrders.execute` (getOrders.ts lines
189-197): every field is optional in its TypeScript type. -/
structure OrdersVariables where
  first : Option Int
  last : Option Int
  after : Option String
  before : Option String
  query : Option String
  reverse : Option Bool
  sortKey : Option OrderSortKeys
deriving DecidableEq, Repr

/-- Construction of the `variables` object in `getOrders.execute`
(getOrders.ts lines 188-216): `reverse` and `sortKey` are set up front;
`if (before)` chooses backward paging (`last`/`before`), otherwise forward
paging (`first`, plus `after` when truthy); the search query is added only
when truthy. -/
def buildOrdersVariables (input : GetOrdersInput) : OrdersVariables :=
  let base : OrdersVariables :=
    { first := none, last := none, after := none, before := none,
      query := none, reverse := some input.reverse, sortKey := some input.sortKey }
  let withPaging :=
    if strTruthy input.before then
      { base with last := some input.limit, before := input.before }
    else
      let forward := { base with first := some input.limit }
      if strTruthy input.after then { forward with after := input.after } else forward
  if strTruthy input.query then { withPaging with query := input.query } else withPaging

/-- The `pageInfo` selection of the orders connection (getOrders.ts lines
58-63). -/
structure PageInfo where
  hasNextPage : Bool
  hasPreviousPage : Bool
  startCursor : Option String
  endCursor : Option String
deriving DecidableEq, Repr

/-- One element of `orders.edges` in the GraphQL response: a cursor plus the
order node, whose inner shape the code never inspects. -/
structure Edge (Node : Type) where
  cursor : String
  node : Node
deriving DecidableEq, Repr

/-- The `orders` connection in the GraphQL response of `GetOrders`. -/
structure OrdersConnection (Node : Type) where
  pageInfo : PageInfo
  edges : List (Edge Node)
deriving DecidableEq, Repr

/-- The data payload returned by the client for the `GetOrders` document. -/
structure OrdersResponse (Node : Type) where
  orders : OrdersConnection Node
deriving DecidableEq, Repr

/-- The value returned by `getOrders.execute` on success (getOrders.ts lines
220-224). -/
structure OrdersResult (Node : Type) where
  orders : List Node
  pageInfo : PageInfo
  cursors : List String
deriving DecidableEq, Repr

/-- The fixed GraphQL document of `GetOrders` (getOrders.ts lines 39-186):
the exact text of the gql template literal, with braces written as the
escapes x7b and x7d. -/
def getOrdersQuery : String :=
  "
        query GetOrders(
          $first: Int
          $last: Int
          $after: String
          $before: String
          $query: String
          $reverse: Boolean
          $sortKey: OrderSortKeys
        ) \x7b
          orders(
            first: $first
            last: $last
            after: $after
            before: $before
            query: $query
            reverse: $reverse
            sortKey: $sortKey
          ) \x7b
            pageInfo \x7b
              hasNextPage
              hasPreviousPage
              startCursor
              endCursor
            \x7d
            edges \x7b
              cursor
              node \x7b
                id
                name
                email
                phone
                createdAt
                updatedAt
                processedAt
                closedAt
                cancelledAt
                cancelReason
                confirmed
                test
                displayFinancialStatus
                displayFulfillmentStatus
                subtotalPriceSet \x7b
                  shopMoney \x7b
                    amount
                    currencyCode
                  \x7d
                \x7d
                totalPriceSet \x7b
                  shopMoney \x7b
                    amount
                    currencyCode
                  \x7d
                \x7d
                totalTaxSet \x7b
                  shopMoney \x7b
                    amount
                    currencyCode
                  \x7d
                \x7d
                totalShippingPriceSet \x7b
                  shopMoney \x7b
                    amount
                    currencyCode
                  \x7d
                \x7d
                totalDiscountsSet \x7b
                  shopMoney \x7b
                    amount
                    currencyCode
                  \x7d
                \x7d
                customer \x7b
                  id
                  firstName
                  lastName
                  email
                  phone
                \x7d
                shippingAddress \x7b
                  address1
                  address2
                  city
                  province
                  country
                  zip
                \x7d
                billingAddress \x7b
                  address1
                  address2
                  city
                  province
                  country
                  zip
                \x7d
                lineItems(first: 10) \x7b
                  edges \x7b
                    node \x7b
                      id
                      title
                      quantity
                      originalUnitPriceSet \x7b
                        shopMoney \x7b
                          amount
                          currencyCode
                        \x7d
                      \x7d
                      discountedUnitPriceSet \x7b
                        shopMoney \x7b
                          amount
                          currencyCode
                        \x7d
                      \x7d
                      variant \x7b
                        id
                        title
                        sku
                        image \x7b
                          url
                          altText
                        \x7d
                      \x7d
                      product \x7b
                        id
                        title
                        handle
                      \x7d
                    \x7d
                  \x7d
                \x7d
                fulfillments \x7b
                  id
                  status
                  createdAt
                  updatedAt
                  trackingInfo \x7b
                    company
                    number
                    url
                  \x7d
                \x7d
                tags
                note
              \x7d
            \x7d
          \x7d
        \x7d
      "

/-- A request issued on the GraphQL client by `getOrders.execute`: the
document string and the variables object passed to `shopifyClient.request`
(getOrders.ts line 218). -/
structure OrdersRequest where
  document : String
  vars : OrdersVariables
deriving DecidableEq, Repr

/-- The single request `getOrders.execute` builds from its input. -/
def getOrders.buildRequest (input : GetOrdersInput) : OrdersRequest :=
  { document := getOrdersQuery, vars := buildOrdersVariables input }

/-- `getOrders.execute` (getOrders.ts lines 34-228), with the GraphQL client
passed as an oracle.  Returns the outcome (success value or the rethrown,
prefix-wrapped error) together with the list of requests issued on the
client. -/
def getOrders.execute {Node : Type}
    (client : OrdersRequest → Except JsError (OrdersResponse Node))
    (input : GetOrdersInput) :
    Except JsError (OrdersResult Node) × List OrdersRequest :=
  let req := getOrders.buildRequest input
  match client req with
  | Except.error e =>
      (Except.error { message := "Failed to fetch orders: " ++ e.message }, [req])
  | Except.ok data =>
      (Except.ok { orders := data.orders.edges.map Edge.node,
                   pageInfo := data.orders.pageInfo,
                   cursors := data.orders.edges.map Edge.cursor }, [req])

/-- The validated input of `getOrderById.execute`, i.e. `z.infer` of
`GetOrderByIdInputSchema` (getOrderById.ts lines 6-10). -/
structure GetOrderByIdInput where
  orderId : String
deriving DecidableEq, Repr

/-- The `variables` object of `getOrderById.execute` (getOrderById.ts lines
337-339). -/
structure OrderByIdVariables where
  id : String
deriving DecidableEq, Repr

/-- The fixed GraphQL document of `GetOrderById` (getOrderById.ts lines
33-335): the exact text of the gql template literal, with braces written as
the escapes x7b and x7d. -/
def getOrderByIdQuery : String :=
  "
        query GetOrderById($id: ID!) \x7b
          order(id: $id) \x7b
            id
            name
            email
            phone
            createdAt
            updatedAt
            processedAt
            closedAt
            cancelledAt
            cancelReason
            confirmed
            test
            displayFinancialStatus
            displayFulfillmentStatus
            subtotalPriceSet \x7b
              shopMoney \x7b
                amount
                currencyCode
              \x7d
              presentmentMoney \x7b
                amount
                currencyCode
              \x7d
            \x7d
            totalPriceSet \x7b
              shopMoney \x7b
                amount
                currencyCode
              \x7d
              presentmentMoney \x7b
                amount
                currencyCode
              \x7d
            \x7d
            totalTaxSet \x7b
              shopMoney \x7b
                amount
                currencyCode
              \x7d
              presentmentMoney \x7b
                amount
                currencyCode
              \x7d
            \x7d
            totalShippingPriceSet \x7b
              shopMoney \x7b
                amount
                currencyCode
              \x7d
              presentmentMoney \x7b
                amount
                currencyCode
              \x7d
            \x7d
            totalDiscountsSet \x7b
              shopMoney \x7b
                amount
                currencyCode
              \x7d
              presentmentMoney \x7b
                amount
                currencyCode
              \x7d
            \x7d
            currentTotalPriceSet \x7b
              shopMoney \x7b
                amount
                currencyCode
              \x7d
              presentmentMoney \x7b
                amount
                currencyCode
              \x7d
            \x7d
            customer \x7b
              id
              firstName
              lastName
              email
              phone
              defaultAddress \x7b
                address1
                address2
                city
                province
                country
                zip
              \x7d
            \x7d
            shippingAddress \x7b
              address1
              address2
              city
              province
              country
              zip
              name
              company
              phone
            \x7d
            billingAddress \x7b
              address1
              address2
              city
              province
              country
              zip
              name
              company
              phone
            \x7d
            lineItems(first: 250) \x7b
              edges \x7b
                node \x7b
                  id
                  title
                  quantity
                  originalUnitPriceSet \x7b
                    shopMoney \x7b
                      amount
                      currencyCode
                    \x7d
                    presentmentMoney \x7b
                      amount
                      currencyCode
                    \x7d
                  \x7d
                  discountedUnitPriceSet \x7b
                    shopMoney \x7b
                      amount
                      currencyCode
                    \x7d
                    presentmentMoney \x7b
                      amount
                      currencyCode
                    \x7d
                  \x7d
                  originalTotalSet \x7b
                    shopMoney \x7b
                      amount
                      currencyCode
                    \x7d
                    presentmentMoney \x7b
                      amount
                      currencyCode
                    \x7d
                  \x7d
                  discountedTotalSet \x7b
                    shopMoney \x7b
                      amount
                      currencyCode
                    \x7d
                    presentmentMoney \x7b
                      amount
                      currencyCode
                    \x7d
                  \x7d
                  variant \x7b
                    id
                    title
                    sku
                    price
                    image \x7b
                      url
                      altText
                    \x7d
                  \x7d
                  product \x7b
                    id
                    title
                    handle
                    productType
                    vendor
                  \x7d
                  customAttributes \x7b
                    key
                    value
                  \x7d
                \x7d
              \x7d
            \x7d
            fulfillments \x7b
              id
              status
              createdAt
              updatedAt
              deliveredAt
              estimatedDeliveryAt
              inTransitAt
              trackingInfo \x7b
                company
                number
                url
              \x7d
              fulfillmentLineItems(first: 250) \x7b
                edges \x7b
                  node \x7b
                    id
                    quantity
                    lineItem \x7b
                      id
                      title
                    \x7d
                  \x7d
                \x7d
              \x7d
            \x7d
            shippingLine \x7b
              title
              code
              source
              originalPriceSet \x7b
                shopMoney \x7b
                  amount
                  currencyCode
                \x7d
                presentmentMoney \x7b
                  amount
                  currencyCode
                \x7d
              \x7d
              discountedPriceSet \x7b
                shopMoney \x7b
                  amount
                  currencyCode
                \x7d
                presentmentMoney \x7b
                  amount
                  currencyCode
                \x7d
              \x7d
            \x7d
            transactions(first: 250) \x7b
              id
              kind
              status
              amount
              gateway
              createdAt
              processedAt
              errorCode
            \x7d
            refunds \x7b
              id
              createdAt
              note
              totalRefundedSet \x7b
                shopMoney \x7b
                  amount
                  currencyCode
                \x7d
                presentmentMoney \x7b
                  amount
                  currencyCode
                \x7d
              \x7d
              refundLineItems(first: 250) \x7b
                edges \x7b
                  node \x7b
                    quantity
                    restockType
                    lineItem \x7b
                      id
                      title
                    \x7d
                  \x7d
                \x7d
              \x7d
            \x7d
            risks(first: 10) \x7b
              level
              message
              display
            \x7d
            discountApplications(first: 10) \x7b
              edges \x7b
                node \x7b
                  allocationMethod
                  targetSelection
                  targetType
                  value \x7b
                    ... on MoneyV2 \x7b
                      amount
                      currencyCode
                    \x7d
                    ... on PricingPercentageValue \x7b
                      percentage
                    \x7d
                  \x7d
                \x7d
              \x7d
            \x7d
            tags
            note
            customerLocale
            sourceIdentifier
            sourceName
          \x7d
        \x7d
      "

/-- A request issued on the GraphQL client by `getOrderById.execute`
(getOrderById.ts line 341). -/
structure OrderByIdRequest where
  document : String
  vars : OrderByIdVariables
deriving DecidableEq, Repr

/-- The data payload returned by the client for the `GetOrderById` document:
the `order` field is null (`none`) when no order matches the id.  The order
object itself is kept polymorphic since the code passes it through
unchanged. -/
structure OrderByIdResponse (Order : Type) where
  order : Option Order
deriving DecidableEq, Repr

/-- The single request `getOrderById.execute` builds from its input. -/
def getOrderById.buildRequest (input : GetOrderByIdInput) : OrderByIdRequest :=
  { document := getOrderByIdQuery, vars := { id := input.orderId } }

/-- `getOrderById.execute` (getOrderById.ts lines 29-351).  The `Order not
found` error thrown at line 344 is caught by the same try/catch and rewrapped
with the `Failed to fetch order: ` prefix at line 349. -/
def getOrderById.execute {Order : Type}
    (client : OrderByIdRequest → Except JsError (OrderByIdResponse Order))
    (input : GetOrderByIdInput) :
    Except JsError Order × List OrderByIdRequest :=
  let req := getOrderById.buildRequest input
  match client req with
  | Except.error e =>
      (Except.error { message := "Failed to fetch order: " ++ e.message }, [req])
  | Except.ok data =>
      match data.order with
      | none =>
          (Except.error
            { message :=
                "Failed to fetch order: " ++ ("Order not found with ID: " ++ input.orderId) },
           [req])
      | some o => (Except.ok o, [req])

/-- The raw (pre-validation) arguments of the `get-orders` tool call: every
field may be absent.  A raw `sortKey` is an arbitrary string, checked against
the enum by the schema. -/
structure RawGetOrdersInput where
  query : Option String
  limit : Option Int
  after : Option String
  before : Option String
  reverse : Option Bool
  sortKey : Option String
deriving DecidableEq, Repr

/-- The seven strings accepted by the `sortKey` enum of
`GetOrdersInputSchema` (getOrders.ts line 12). -/
def sortKeyStrings : List String :=
  ["CREATED_AT", "CUSTOMER_NAME", "ID", "ORDER_NUMBER", "PROCESSED_AT",
   "TOTAL_PRICE", "UPDATED_AT"]

/-- Recognition of a raw `sortKey` string by the `z.enum` of
`GetOrdersInputSchema` (getOrders.ts line 12). -/
def parseSortKey (s : String) : Option OrderSortKeys :=
  if s = "CREATED_AT" then some OrderSortKeys.CREATED_AT
  else if s = "CUSTOMER_NAME" then some OrderSortKeys.CUSTOMER_NAME
  else if s = "ID" then some OrderSortKeys.ID
  else if s = "ORDER_NUMBER" then some OrderSortKeys.ORDER_NUMBER
  else if s = "PROCESSED_AT" then some OrderSortKeys.PROCESSED_AT
  else if s = "TOTAL_PRICE" then some OrderSortKeys.TOTAL_PRICE
  else if s = "UPDATED_AT" then some OrderSortKeys.UPDATED_AT
  else none

/-- Validation of the raw `get-orders` arguments by `GetOrdersInputSchema`
(getOrders.ts lines 6-13, re-declared inline at the `server.tool` registration
in index.ts lines 210-219): `limit` defaults to 10, `reverse` to `false`,
`sortKey` to `PROCESSED_AT`; a `sortKey` outside the enum is rejected. -/
def GetOrdersInputSchema.parse (raw : RawGetOrdersInput) : Option GetOrdersInput :=
  match raw.sortKey with
  | none =>
      some { query := raw.query, limit := raw.limit.getD 10, after := raw.after,
             before := raw.before, reverse := raw.reverse.getD false,
             sortKey := OrderSortKeys.PROCESSED_AT }
  | some s =>
      match parseSortKey s with
      | none => none
      | some k =>
          some { query := raw.query, limit := raw.limit.getD 10, after := raw.after,
                 before := raw.before, reverse := raw.reverse.getD false,
                 sortKey := k }

/-- The raw (pre-validation) arguments of the `get-order-by-id` tool call. -/
structure RawGetOrderByIdInput where
  orderId : Option String
deriving DecidableEq, Repr

/-- Validation of the raw `get-order-by-id` arguments by
`GetOrderByIdInputSchema` (getOrderById.ts lines 6-8): `orderId` must be a
present string of length at least 1 (`z.string().min(1)`). -/
def GetOrderByIdInputSchema.parse (raw : RawGetOrderByIdInput) :
    Option GetOrderByIdInput :=
  match raw.orderId with
  | none => none
  | some s => if 1 ≤ s.length then some { orderId := s } else none

/-- Modelled from the spec: "Each tool validates its input" — the MCP server
registration (`server.tool` in index.ts lines 210-226) hands the tool's zod
schema to the MCP SDK, which validates the incoming arguments and invokes the
handler (and hence `getOrders.execute`) only when validation succeeds.  The
SDK's validate-then-dispatch step is not part of this repository's sources;
on schema failure `execute` never runs, so no request reaches the client. -/
def handleGetOrdersCall {Node : Type}
    (client : OrdersRequest → Except JsError (OrdersResponse Node))
    (raw : RawGetOrdersInput) :
    Except JsError (OrdersResult Node) × List OrdersRequest :=
  match GetOrdersInputSchema.parse raw with
  | none => (Except.error { message := "Invalid arguments" }, [])
  | some input => getOrders.execute client input

/-- Modelled from the spec: the same validate-then-dispatch step for the
`get-order-by-id` registration (index.ts lines 228-237). -/
def handleGetOrderByIdCall {Order : Type}
    (client : OrderByIdRequest → Except JsError (OrderByIdResponse Order))
    (raw : RawGetOrderByIdInput) :
    Except JsError Order × List OrderByIdRequest :=
  match GetOrderByIdInputSchema.parse raw with
  | none => (Except.error { message := "Invalid arguments" }, [])
  | some input => getOrderById.execute client input

/-- The module-level state of getOrders.ts: the single `shopifyClient`
variable (line 18), written only by `initialize` (lines 30-32) and read by
`execute`. -/
structure OrdersToolState (Node : Type) where
  shopifyClient : OrdersRequest → Except JsError (OrdersResponse Node)

/-- `getOrders.execute` with the module state made explicit: the body only
reads `shopifyClient` and performs no assignment, so the state comes back
unchanged. -/
def getOrders.executeSt {Node : Type} (st : OrdersToolState Node)
    (input : GetOrdersInput) :
    (Except JsError (OrdersResult Node) × List OrdersRequest) × OrdersToolState Node :=
  (getOrders.execute st.shopifyClient input, st)

/-- A sequence of `get-orders` invocations threading the module state. -/
def getOrders.runSequence {Node : Type} (st : OrdersToolState Node) :
    List GetOrdersInput → List (Except JsError (OrdersResult Node)) × OrdersToolState Node
  | [] => ([], st)
  | input :: rest =>
      let step := getOrders.executeSt st input
      let tail := getOrders.runSequence step.2 rest
      (step.1.1 :: tail.1, tail.2)

/-- The module-level state of getOrderById.ts: its own `shopifyClient`
variable (line 13). -/
structure OrderByIdToolState (Order : Type) where
  shopifyClient : OrderByIdRequest → Except JsError (OrderByIdResponse Order)

/-- `getOrderById.execute` with the module state made explicit. -/
def getOrderById.executeSt {Order : Type} (st : OrderByIdToolState Order)
    (input : GetOrderByIdInput) :
    (Except JsError Order × List OrderByIdRequest) × OrderByIdToolState Order :=
  (getOrderById.execute st.shopifyClient input, st)

/-- A sequence of `get-order-by-id` invocations threading the module state. -/
def getOrderById.runSequence {Order : Type} (st : OrderByIdToolState Order) :
    List GetOrderByIdInput → List (Except JsError Order) × OrderByIdToolState Order
  | [] => ([], st)
  | input :: rest =>
      let step := getOrderById.executeSt st input
      let tail := getOrderById.runSequence step.2 rest
      (step.1.1 :: tail.1, tail.2)

/-- Whitespace as it occurs before the operation keyword in the two gql
template literals. -/
def isWhitespaceChar (c : Char) : Bool := c == ' ' || c == '\n'

/-- `listStarts p l` holds when the char list `l` begins with `p`. -/
def listStarts : List Char → List Char → Bool
  | [], _ => true
  | _ :: _, [] => false
  | a :: p, b :: l => a == b && listStarts p l

/-- A GraphQL document whose first token is the `query` keyword: a read-only
query operation, not a mutation. -/
def operationIsQuery (doc : String) : Bool :=
  listStarts "query".toList (doc.toList.dropWhile isWhitespaceChar)

/-- C1 as stated by the spec claim: the pagination variables are chosen by
the *presence* of the `before` (resp. `after`) cursor in the input. -/
def ordersClaimAsStated : Prop :=
  ∀ input : GetOrdersInput,
    (∀ b, input.before = some b →
      (buildOrdersVariables input).last = some input.limit ∧
      (buildOrdersVariables input).before = some b ∧
      (buildOrdersVariables input).first = none ∧
      (buildOrdersVariables input).after = none) ∧
    (input.before = none →
      (buildOrdersVariables input).first = some input.limit ∧
      (buildOrdersVariables input).after = input.after ∧
      (buildOrdersVariables input).last = none ∧
      (buildOrdersVariables input).before = none) ∧
    ¬((buildOrdersVariables input).first ≠ none ∧ (buildOrdersVariables input).last ≠ none)

/-- C9 as stated by the spec claim: when `limit` is omitted the default 10 is
sent as `first`, "or as last when before is given" — i.e. whenever the raw
input contains a `before` value at all. -/
def defaultsClaimAsStated : Prop :=
  ∀ (raw : RawGetOrdersInput) (input : GetOrdersInput),
    GetOrdersInputSchema.parse raw = some input →
      (raw.limit = none →
        input.limit = 10 ∧
        (raw.before ≠ none → (buildOrdersVariables input).last = some 10) ∧
        (raw.before = none → (buildOrdersVariables input).first = some 10)) ∧
      (raw.reverse = none → input.reverse = false) ∧
      (raw.sortKey = none → input.sortKey = OrderSortKeys.PROCESSED_AT) ∧
      (buildOrdersVariables input).reverse = some input.reverse ∧
      (buildOrdersVariables input).sortKey = some input.sortKey

/-- A concrete order-node type for witnesses. -/
def pageInfo0 : PageInfo :=
  { hasNextPage := true, hasPreviousPage := false,
    startCursor := some "c1", endCursor := some "c2" }

/-- A concrete `GetOrders` response over `Nat` nodes, for witnesses. -/
def ordersResp0 : OrdersResponse Nat :=
  { orders :=
      { pageInfo := pageInfo0,
        edges := [{ cursor := "c1", node := 1 }, { cursor := "c2", node := 2 }] } }

/-- A client that always succeeds with `ordersResp0`, for witnesses. -/
def ordersOkClient : OrdersRequest → Except JsError (OrdersResponse Nat) :=
  fun _ => Except.ok ordersResp0

/-- A client that always throws, for witnesses. -/
def ordersErrClient : OrdersRequest → Except JsError (OrdersResponse Unit) :=
  fun _ => Except.error { message := "boom" }

/-- A concrete `get-orders` input, for witnesses. -/
def ordersInput0 : GetOrdersInput :=
  { query := none, limit := 10, after := none, before := none,
    reverse := false, sortKey := OrderSortKeys.PROCESSED_AT }

/-- A concrete `get-order-by-id` input, for witnesses. -/
def byIdInput0 : GetOrderByIdInput := { orderId := "gid://shopify/Order/42" }

/-- A by-id client that finds the order `7`, for witnesses. -/
def byIdOkClient : OrderByIdRequest → Except JsError (OrderByIdResponse Nat) :=
  fun _ => Except.ok { order := some 7 }

/-- A by-id client whose response has a null `order` field, for witnesses. -/
def byIdNullClient : OrderByIdRequest → Except JsError (OrderByIdResponse Nat) :=
  fun _ => Except.ok { order := none }

/-- A by-id client that always throws, for witnesses. -/
def byIdErrClient : OrderByIdRequest → Except JsError (OrderByIdResponse Unit) :=
  fun _ => Except.error { message := "boom" }
/-- A second always-succeeding client, syntactically distinct from
`ordersOkClient`, for the determinism witness. -/
def ordersOkClientB : OrdersRequest → Except JsError (OrdersResponse Nat) :=
  fun _ => Except.ok ordersResp0

/-- A raw `get-orders` input whose `sortKey` is outside the enum, for
witnesses. -/
def rawBadSortKey : RawGetOrdersInput :=
  { query := none, limit := none, after := none, before := none,
    reverse := none, sortKey := some "FOO" }

/-- The C1 counterexample input: a present but empty `before` cursor.  It is
also the result of validating `rawEmptyBefore` (all defaults applied). -/
def ordersInputEmptyBefore : GetOrdersInput :=
  { query := none, limit := 10, after := none, before := some "",
    reverse := false, sortKey := OrderSortKeys.PROCESSED_AT }

/-- A backward-paging input with a non-empty `before` cursor, for the C1
witness. -/
def ordersInputBack : GetOrdersInput :=
  { query := none, limit := 5, after := some "a", before := some "b",
    reverse := false, sortKey := OrderSortKeys.PROCESSED_AT }

/-- A raw `get-orders` input with every field omitted, for the C9 witness. -/
def rawOmitted : RawGetOrdersInput :=
  { query := none, limit := none, after := none, before := none,
    reverse := none, sortKey := none }

/-- A raw `get-orders` input with `before = ""` and everything else omitted,
for the C9 counterexample. -/
def rawEmptyBefore : RawGetOrdersInput :=
  { query := none, limit := none, after := none, before := some "",
    reverse := none, sortKey := none }

/-- A raw `get-order-by-id` input with an empty `orderId`, rejected by
`z.string().min(1)`. -/
def rawEmptyOrderId : RawGetOrderByIdInput := { orderId := some "" }

/-- Canonical description of the variables object built by
`getOrders.execute`, with each field written as a single conditional on the
truthiness tests of the source. -/
theorem buildOrdersVariables_eq (input : GetOrdersInput) :
    buildOrdersVariables input =
      { first := if strTruthy input.before then none else some input.limit,
        last := if strTruthy input.before then some input.limit else none,
        after := if strTruthy input.before then none
                 else if strTruthy input.after then input.after else none,
        before := if strTruthy input.before then input.before else none,
        query := if strTruthy input.query then input.query else none,
        reverse := some input.reverse,
        sortKey := some input.sortKey } := by
  unfold buildOrdersVariables
  cases hb : strTruthy input.before <;> cases ha : strTruthy input.after <;>
    cases hq : strTruthy input.query <;> simp [hb, ha, hq]

/-- A string outside `sortKeyStrings` is rejected by the enum check. -/
theorem parseSortKey_eq_none (s : String) (h : s ∉ sortKeyStrings) :
    parseSortKey s = none := by
  simp only [sortKeyStrings, List.mem_cons, List.not_mem_nil, or_false] at h
  push_neg at h
  obtain ⟨h1, h2, h3, h4, h5, h6, h7⟩ := h
  simp [parseSortKey, h1, h2, h3, h4, h5, h6, h7]
/-- Claim C1 fails as stated: at the input with `before = some ""` (a present
but empty cursor) the code takes the forward branch, so the variables contain
`first = limit` and no `last`, while the claim demands `last = limit`. -/
theorem C1_counterexample : ¬ ordersClaimAsStated := by
  intro h
  have h1 := ((h ordersInputEmptyBefore).1 "" rfl).1
  exact absurd h1 (by decide)

/-- Claim C1 (amended): if the input's `before` cursor is present and
non-empty, the variables contain `last = limit` and `before = the given
cursor` and neither `first` nor `after`; otherwise they contain
`first = limit`, contain `after` exactly when the input's `after` is present
and non-empty, and neither `last` nor `before`; in no call do they contain
both `first` and `last`. -/
theorem C1_pagination_variables (input : GetOrdersInput) :
    (strTruthy input.before = true →
      (buildOrdersVariables input).last = some input.limit ∧
      (buildOrdersVariables input).before = input.before ∧
      (buildOrdersVariables input).first = none ∧
      (buildOrdersVariables input).after = none) ∧
    (strTruthy input.before = false →
      (buildOrdersVariables input).first = some input.limit ∧
      (buildOrdersVariables input).after =
        (if strTruthy input.after then input.after else none) ∧
      (buildOrdersVariables input).last = none ∧
      (buildOrdersVariables input).before = none) ∧
    ¬((buildOrdersVariables input).first ≠ none ∧
      (buildOrdersVariables input).last ≠ none) := by
  rw [buildOrdersVariables_eq]
  cases hb : strTruthy input.before <;> simp

/-- Concrete instance of the amended C1: a non-empty `before` cursor selects
backward paging. -/
theorem C1_pagination_variables_witness :
    strTruthy ordersInputBack.before = true ∧
    (buildOrdersVariables ordersInputBack).last = some 5 :=
  ⟨by decide, ((C1_pagination_variables ordersInputBack).1 (by decide)).1⟩
/-- Claim C9 fails as stated: with `limit` omitted and `before` given as the
empty string, the defaulted limit 10 is sent as `first`, not as `last` as the
claim ("as last when before is given") demands. -/
theorem C9_counterexample : ¬ defaultsClaimAsStated := by
  intro h
  have h1 := ((h rawEmptyBefore ordersInputEmptyBefore rfl).1 rfl).2.1 (by simp [rawEmptyBefore])
  exact absurd h1 (by decide)

/-- Claim C9 (amended): for every `get-orders` call in which a field is
omitted, the schema-supplied default is used — `limit` defaults to 10 (and
that defaulted value is what is sent as `first`, or as `last` when `before`
is given and non-empty), `reverse` defaults to `false`, `sortKey` defaults to
`PROCESSED_AT`; `reverse` and `sortKey` are always included in the variables
sent to the client. -/
theorem C9_schema_defaults (raw : RawGetOrdersInput) (input : GetOrdersInput)
    (h : GetOrdersInputSchema.parse raw = some input) :
    (raw.limit = none →
      input.limit = 10 ∧
      (strTruthy input.before = true → (buildOrdersVariables input).last = some 10) ∧
      (strTruthy input.before = false → (buildOrdersVariables input).first = some 10)) ∧
    (raw.reverse = none → input.reverse = false) ∧
    (raw.sortKey = none → input.sortKey = OrderSortKeys.PROCESSED_AT) ∧
    (buildOrdersVariables input).reverse = some input.reverse ∧
    (buildOrdersVariables input).sortKey = some input.sortKey := by
  have hfields : input.limit = raw.limit.getD 10 ∧ input.reverse = raw.reverse.getD false ∧
      (raw.sortKey = none → input.sortKey = OrderSortKeys.PROCESSED_AT) := by
    unfold GetOrdersInputSchema.parse at h
    split at h
    case _ hk =>
      simp only [Option.some.injEq] at h
      subst h
      exact ⟨rfl, rfl, fun _ => rfl⟩
    case _ s hk =>
      split at h
      case _ => exact absurd h (by simp)
      case _ k hpk =>
        simp only [Option.some.injEq] at h
        subst h
        exact ⟨rfl, rfl, fun hn => absurd hk (by simp [hn])⟩
  refine ⟨?_, ?_, hfields.2.2, ?_, ?_⟩
  · intro hl
    have h10 : input.limit = 10 := by rw [hfields.1, hl]; rfl
    refine ⟨h10, ?_, ?_⟩
    · intro hb; rw [buildOrdersVariables_eq]; simp [hb, h10]
    · intro hb; rw [buildOrdersVariables_eq]; simp [hb, h10]
  · intro hr
    rw [hfields.2.1, hr]; rfl
  · rw [buildOrdersVariables_eq]
  · rw [buildOrdersVariables_eq]

/-- Concrete instance of the amended C9: with every field omitted, the
validated input is `ordersInput0` and the defaulted limit is sent as
`first`. -/
theorem C9_schema_defaults_witness :
    GetOrdersInputSchema.parse rawOmitted = some ordersInput0 ∧
    ordersInput0.limit = 10 ∧
    (buildOrdersVariables ordersInput0).first = some 10 ∧
    (buildOrdersVariables ordersInput0).reverse = some false :=
  ⟨rfl,
   ((C9_schema_defaults rawOmitted ordersInput0 rfl).1 rfl).1,
   ((C9_schema_defaults rawOmitted ordersInput0 rfl).1 rfl).2.2 (by decide),
   (C9_schema_defaults rawOmitted ordersInput0 rfl).2.2.2.1⟩

/-- Claim C10: calling `getOrders.execute` with `query = ""` behaves
identically to calling it with `query` omitted — the variables contain no
`query` field, and for the same client outcome the two calls return equal
results (and issue the same requests). -/
theorem C10_empty_query_ignored (l : Int) (a b : Option String) (r : Bool)
    (k : OrderSortKeys) :
    (∀ (Node : Type) (client : OrdersRequest → Except JsError (OrdersResponse Node)),
      getOrders.execute client
          { query := some "", limit := l, after := a, before := b,
            reverse := r, sortKey := k } =
        getOrders.execute client
          { query := none, limit := l, after := a, before := b,
            reverse := r, sortKey := k }) ∧
    (buildOrdersVariables
        { query := some "", limit := l, after := a, before := b,
          reverse := r, sortKey := k }).query = none := by
  have hv : buildOrdersVariables
        { query := some "", limit := l, after := a, before := b,
          reverse := r, sortKey := k } =
      buildOrdersVariables
        { query := none, limit := l, after := a, before := b,
          reverse := r, sortKey := k } := by
    rw [buildOrdersVariables_eq, buildOrdersVariables_eq]
    simp [strTruthy]
  constructor
  · intro Node client
    unfold getOrders.execute getOrders.buildRequest
    rw [hv]
  · rw [buildOrdersVariables_eq]
    simp [strTruthy]
/-- Claim C2: on a successful call, `getOrders.execute` returns exactly the
object with `orders` the list of node fields of the response's edges in
order, `pageInfo` the response's pageInfo unchanged, and `cursors` the list
of the same edges' cursors in the same order; `orders` and `cursors` have
equal length and the k-th cursor is the cursor of the edge carrying the k-th
order. -/
theorem C2_orders_result_shape {Node : Type}
    (client : OrdersRequest → Except JsError (OrdersResponse Node))
    (input : GetOrdersInput) (resp : OrdersResponse Node)
    (h : client (getOrders.buildRequest input) = Except.ok resp) :
    (getOrders.execute client input).1 =
      Except.ok { orders := resp.orders.edges.map Edge.node,
                  pageInfo := resp.orders.pageInfo,
                  cursors := resp.orders.edges.map Edge.cursor } ∧
    (resp.orders.edges.map Edge.node).length =
      (resp.orders.edges.map Edge.cursor).length ∧
    (∀ k e, resp.orders.edges.get? k = some e →
      (resp.orders.edges.map Edge.node).get? k = some e.node ∧
      (resp.orders.edges.map Edge.cursor).get? k = some e.cursor) := by
  refine ⟨?_, ?_, ?_⟩
  · simp [getOrders.execute, h]
  · simp
  · intro k e hk
    rw [List.get?_eq_getElem?] at hk
    constructor <;> simp [List.get?_eq_getElem?, List.getElem?_map, hk]

/-- Concrete instance of C2: two edges flatten to two nodes and two
cursors. -/
theorem C2_orders_result_shape_witness :
    ordersOkClient (getOrders.buildRequest ordersInput0) = Except.ok ordersResp0 ∧
    (getOrders.execute ordersOkClient ordersInput0).1 =
      Except.ok { orders := ordersResp0.orders.edges.map Edge.node,
                  pageInfo := ordersResp0.orders.pageInfo,
                  cursors := ordersResp0.orders.edges.map Edge.cursor } :=
  ⟨rfl, (C2_orders_result_shape ordersOkClient ordersInput0 ordersResp0 rfl).1⟩

/-- Claim C3: when the client throws, `getOrders.execute` rethrows an error
whose message is exactly `Failed to fetch orders: ` followed by the original
message, and `getOrderById.execute` rethrows with the `Failed to fetch
order: ` prefix; no result value is returned and no second request is
issued. -/
theorem C3_error_wrapping :
    (∀ (Node : Type) (client : OrdersRequest → Except JsError (OrdersResponse Node))
        (input : GetOrdersInput) (e : JsError),
      client (getOrders.buildRequest input) = Except.error e →
        getOrders.execute client input =
          (Except.error { message := "Failed to fetch orders: " ++ e.message },
           [getOrders.buildRequest input])) ∧
    (∀ (Order : Type) (client : OrderByIdRequest → Except JsError (OrderByIdResponse Order))
        (input : GetOrderByIdInput) (e : JsError),
      client (getOrderById.buildRequest input) = Except.error e →
        getOrderById.execute client input =
          (Except.error { message := "Failed to fetch order: " ++ e.message },
           [getOrderById.buildRequest input])) := by
  constructor
  · intro Node client input e h
    simp [getOrders.execute, h]
  · intro Order client input e h
    simp [getOrderById.execute, h]

/-- Concrete instance of C3: a client error `boom` is rethrown with each
tool's fixed prefix. -/
theorem C3_error_wrapping_witness :
    ordersErrClient (getOrders.buildRequest ordersInput0) =
      Except.error { message := "boom" } ∧
    getOrders.execute ordersErrClient ordersInput0 =
      (Except.error { message := "Failed to fetch orders: " ++ "boom" },
       [getOrders.buildRequest ordersInput0]) ∧
    getOrderById.execute byIdErrClient byIdInput0 =
      (Except.error { message := "Failed to fetch order: " ++ "boom" },
       [getOrderById.buildRequest byIdInput0]) :=
  ⟨rfl,
   C3_error_wrapping.1 Unit ordersErrClient ordersInput0 { message := "boom" } rfl,
   C3_error_wrapping.2 Unit byIdErrClient byIdInput0 { message := "boom" } rfl⟩

/-- Claim C4: when the response's `order` field is null, `getOrderById.execute`
throws an error whose message contains `Order not found with ID: ` followed by
the given id, wrapped by the `Failed to fetch order: ` prefix; when the field
is non-null the order object is returned unchanged; a success value only
arises from a non-null order field. -/
theorem C4_order_not_found {Order : Type}
    (client : OrderByIdRequest → Except JsError (OrderByIdResponse Order))
    (input : GetOrderByIdInput) (resp : OrderByIdResponse Order)
    (h : client (getOrderById.buildRequest input) = Except.ok resp) :
    (resp.order = none →
      (getOrderById.execute client input).1 =
        Except.error { message :=
          "Failed to fetch order: " ++ ("Order not found with ID: " ++ input.orderId) }) ∧
    (∀ o, resp.order = some o → (getOrderById.execute client input).1 = Except.ok o) ∧
    (∀ o, (getOrderById.execute client input).1 = Except.ok o → resp.order = some o) := by
  refine ⟨?_, ?_, ?_⟩
  · intro hn
    simp [getOrderById.execute, h, hn]
  · intro o ho
    simp [getOrderById.execute, h, ho]
  · intro o ho
    cases hro : resp.order with
    | none => simp [getOrderById.execute, h, hro] at ho
    | some o2 =>
        simp [getOrderById.execute, h, hro] at ho
        rw [ho]

/-- Concrete instance of C4: a null `order` yields the wrapped not-found
error, a non-null `order` is returned unchanged. -/
theorem C4_order_not_found_witness :
    byIdNullClient (getOrderById.buildRequest byIdInput0) = Except.ok { order := none } ∧
    (getOrderById.execute byIdNullClient byIdInput0).1 =
      Except.error { message :=
        "Failed to fetch order: " ++ ("Order not found with ID: " ++ byIdInput0.orderId) } ∧
    (getOrderById.execute byIdOkClient byIdInput0).1 = Except.ok 7 :=
  ⟨rfl,
   (C4_order_not_found byIdNullClient byIdInput0 { order := none } rfl).1 rfl,
   (C4_order_not_found byIdOkClient byIdInput0 { order := some 7 } rfl).2.1 7 rfl⟩
/-- Claim C5: the GraphQL document sent to the client is a fixed constant
independent of the input — any two inputs yield the identical document for
each tool, input values flow only into the variables object — and both
documents are read-only query operations, not mutations. -/
theorem C5_fixed_documents :
    (∀ i j : GetOrdersInput,
      (getOrders.buildRequest i).document = (getOrders.buildRequest j).document) ∧
    (∀ i : GetOrdersInput, (getOrders.buildRequest i).document = getOrdersQuery) ∧
    (∀ i j : GetOrderByIdInput,
      (getOrderById.buildRequest i).document = (getOrderById.buildRequest j).document) ∧
    (∀ i : GetOrderByIdInput,
      (getOrderById.buildRequest i).document = getOrderByIdQuery) ∧
    operationIsQuery getOrdersQuery = true ∧
    operationIsQuery getOrderByIdQuery = true :=
  ⟨fun _ _ => rfl, fun _ => rfl, fun _ _ => rfl, fun _ => rfl, by rfl, by rfl⟩

/-- Claim C6: every invocation of either tool issues exactly one request on
the GraphQL client — the single built request — for every input and every
client outcome. -/
theorem C6_single_request :
    (∀ (Node : Type) (client : OrdersRequest → Except JsError (OrdersResponse Node))
        (input : GetOrdersInput),
      (getOrders.execute client input).2 = [getOrders.buildRequest input]) ∧
    (∀ (Order : Type) (client : OrderByIdRequest → Except JsError (OrderByIdResponse Order))
        (input : GetOrderByIdInput),
      (getOrderById.execute client input).2 = [getOrderById.buildRequest input]) := by
  constructor
  · intro Node client input
    cases h : client (getOrders.buildRequest input) with
    | error e => simp [getOrders.execute, h]
    | ok data => simp [getOrders.execute, h]
  · intro Order client input
    cases h : client (getOrderById.buildRequest input) with
    | error e => simp [getOrderById.execute, h]
    | ok data =>
        cases hro : data.order with
        | none => simp [getOrderById.execute, h, hro]
        | some o => simp [getOrderById.execute, h, hro]

/-- Claim C7: each tool's input is validated against its schema before
`execute` runs — `get-order-by-id` rejects an empty `orderId`,
`get-orders` rejects a `sortKey` outside the enum, and on any schema failure
`execute` is not invoked and no request reaches the client. -/
theorem C7_schema_rejections :
    GetOrderByIdInputSchema.parse rawEmptyOrderId = none ∧
    (∀ (raw : RawGetOrdersInput) (s : String), raw.sortKey = some s →
      s ∉ sortKeyStrings → GetOrdersInputSchema.parse raw = none) ∧
    (∀ (Node : Type) (client : OrdersRequest → Except JsError (OrdersResponse Node))
        (raw : RawGetOrdersInput), GetOrdersInputSchema.parse raw = none →
      handleGetOrdersCall client raw =
        (Except.error { message := "Invalid arguments" }, [])) ∧
    (∀ (Order : Type) (client : OrderByIdRequest → Except JsError (OrderByIdResponse Order))
        (raw : RawGetOrderByIdInput), GetOrderByIdInputSchema.parse raw = none →
      handleGetOrderByIdCall client raw =
        (Except.error { message := "Invalid arguments" }, [])) := by
  refine ⟨by decide, ?_, ?_, ?_⟩
  · intro raw s hk hmem
    have hpk := parseSortKey_eq_none s hmem
    simp [GetOrdersInputSchema.parse, hk, hpk]
  · intro Node client raw hp
    simp [handleGetOrdersCall, hp]
  · intro Order client raw hp
    simp [handleGetOrderByIdCall, hp]

/-- Concrete instance of C7: the out-of-enum sort key `FOO` and the empty
`orderId` are rejected with no request issued. -/
theorem C7_schema_rejections_witness :
    rawBadSortKey.sortKey = some "FOO" ∧
    GetOrdersInputSchema.parse rawBadSortKey = none ∧
    handleGetOrdersCall ordersOkClient rawBadSortKey =
      (Except.error { message := "Invalid arguments" }, []) ∧
    handleGetOrderByIdCall byIdOkClient rawEmptyOrderId =
      (Except.error { message := "Invalid arguments" }, []) :=
  ⟨rfl,
   C7_schema_rejections.2.1 rawBadSortKey "FOO" rfl (by decide),
   C7_schema_rejections.2.2.1 Nat ordersOkClient rawBadSortKey
     (C7_schema_rejections.2.1 rawBadSortKey "FOO" rfl (by decide)),
   C7_schema_rejections.2.2.2 Nat byIdOkClient rawEmptyOrderId
     C7_schema_rejections.1⟩

/-- Claim C8: both tools are stateless and deterministic — an invocation
leaves the module state (the installed client) unchanged, a sequence of
invocations is the pointwise map of the single-invocation function (no result
depends on any earlier invocation), and two invocations with the same input
whose clients return the same outcome produce equal results. -/
theorem C8_stateless_deterministic :
    (∀ (Node : Type) (st : OrdersToolState Node) (input : GetOrdersInput),
      (getOrders.executeSt st input).2 = st) ∧
    (∀ (Order : Type) (st : OrderByIdToolState Order) (input : GetOrderByIdInput),
      (getOrderById.executeSt st input).2 = st) ∧
    (∀ (Node : Type) (st : OrdersToolState Node) (inputs : List GetOrdersInput),
      getOrders.runSequence st inputs =
        (inputs.map (fun i => (getOrders.execute st.shopifyClient i).1), st)) ∧
    (∀ (Order : Type) (st : OrderByIdToolState Order) (inputs : List GetOrderByIdInput),
      getOrderById.runSequence st inputs =
        (inputs.map (fun i => (getOrderById.execute st.shopifyClient i).1), st)) ∧
    (∀ (Node : Type) (c1 c2 : OrdersRequest → Except JsError (OrdersResponse Node))
        (input : GetOrdersInput),
      c1 (getOrders.buildRequest input) = c2 (getOrders.buildRequest input) →
      getOrders.execute c1 input = getOrders.execute c2 input) ∧
    (∀ (Order : Type) (c1 c2 : OrderByIdRequest → Except JsError (OrderByIdResponse Order))
        (input : GetOrderByIdInput),
      c1 (getOrderById.buildRequest input) = c2 (getOrderById.buildRequest input) →
      getOrderById.execute c1 input = getOrderById.execute c2 input) := by
  refine ⟨fun _ _ _ => rfl, fun _ _ _ => rfl, ?_, ?_, ?_, ?_⟩
  · intro Node st inputs
    induction inputs with
    | nil => rfl
    | cons i rest ih => simp [getOrders.runSequence, getOrders.executeSt, ih]
  · intro Order st inputs
    induction inputs with
    | nil => rfl
    | cons i rest ih => simp [getOrderById.runSequence, getOrderById.executeSt, ih]
  · intro Node c1 c2 input h
    simp only [getOrders.execute]
    rw [h]
  · intro Order c1 c2 input h
    simp only [getOrderById.execute]
    rw [h]

/-- Concrete instance of C8: two syntactically different clients that return
the same response give equal results. -/
theorem C8_stateless_deterministic_witness :
    ordersOkClient (getOrders.buildRequest ordersInput0) =
      ordersOkClientB (getOrders.buildRequest ordersInput0) ∧
    getOrders.execute ordersOkClient ordersInput0 =
      getOrders.execute ordersOkClientB ordersInput0 :=
  ⟨rfl,
   C8_stateless_deterministic.2.2.2.2.1 Nat ordersOkClient ordersOkClientB
     ordersInput0 rfl⟩

end ShopifyMCP
